import Mathlib

/-!
Shallow embedding of `localstripe-v3.js` (the browser-side mock of the
Stripe client library) and proofs about it.

The network is modelled as an oracle `net : Nat → HttpResp` giving the
response to the k-th `fetch` issued by one entry-point invocation, and the
Challenge Presenter (the `openModal` 3-D-Secure dialog) as a boolean
`presenter`.  Each entry point returns the JavaScript result value together
with the ordered trace of observable events (network calls and modal
openings).  Entry points are wrapped in `Except JsErr`: `.error` models an
exception escaping the public boundary (the promise rejecting), `.ok` a
normal resolution.
-/

namespace Localstripe

/-- JS `\w` character class (the regexes carry no `u` flag): ASCII letters,
digits and underscore. -/
def isWordChar (c : Char) : Bool := c.isAlphanum || c = '_'

/-- Greedy split for the regex fragment `(\w+)_secret_` applied at the start
of `l`: the largest `k ≥ 1` such that the first `k` characters are word
characters and the literal `_secret_` follows immediately. -/
def greedySplit (l : List Char) : Option Nat :=
  (List.range (l.length + 1)).reverse.find? fun k =>
    decide (1 ≤ k) && (l.take k).all isWordChar &&
      List.isPrefixOf ("_secret_".toList) (l.drop k)

/-- Match `^(<kind>\w+)_secret_` against `s` and return capture group 1,
as in `clientSecret.match(/^(seti_\w+)_secret_/)[1]` (localstripe-v3.js:375).
`none` models a `null` match (reading `[1]` then throws a TypeError). -/
def parseSecret (kind : List Char) (s : String) : Option String :=
  let l := s.toList
  if List.isPrefixOf kind l then
    match greedySplit (l.drop kind.length) with
    | some k => some (String.mk (kind ++ (l.drop kind.length).take k))
    | none => none
  else none

/-- Setup-intent id extraction, `/^(seti_\w+)_secret_/` (localstripe-v3.js:375). -/
def parseSetiSecret (s : String) : Option String := parseSecret "seti_".toList s

/-- Payment-intent id extraction, `/^(pi_\w+)_secret_/` (localstripe-v3.js:454). -/
def parsePiSecret (s : String) : Option String := parseSecret "pi_".toList s

/-- Card fields of an Element's `value.card` snapshot (localstripe-v3.js:131-137). -/
structure CardVal where
  number : String
  exp_month : String
  exp_year : String
  cvc : String
deriving DecidableEq

/-- An Element's `value` snapshot: `{ card: {...}, postal_code }`. -/
structure ElemValue where
  card : CardVal
  postal_code : String
deriving DecidableEq

/-- The `card` entry of `data.payment_method` passed to `confirmCardSetup`:
either an `Element` instance (whose `value` may still be `undefined` when no
keystroke ever fired) or a plain card object. -/
inductive CardArg where
  | element (value : Option ElemValue)
  | plain (card : CardVal)
deriving DecidableEq

/-- The `data.payment_method` argument object.  `card = none` models an
absent `card` property; `billing_postal_code` models a caller-supplied
`billing_details.address.postal_code` (absent or falsy ↦ `none`, matching
the `||` defaulting at localstripe-v3.js:384-386). -/
structure PaymentMethodObj where
  card : Option CardArg
  billing_postal_code : Option String
deriving DecidableEq

/-- The `payment_method_data` object sent in a confirm request body
(localstripe-v3.js:394-397 and 494-497). -/
structure PmPayload where
  type : String
  card : Option CardVal
  billing_postal_code : Option String
deriving DecidableEq

/-- JSON body of a setup-intent confirm/cancel request
(localstripe-v3.js:390-398, 413-417). `payment_method_data = none` models
the field being absent. -/
structure ConfirmBody where
  key : String
  use_stripe_sdk : Bool
  client_secret : String
  payment_method_data : Option PmPayload
deriving DecidableEq

/-- One network request, carrying the endpoint and every body/query field
the script puts in it. -/
inductive Req where
  | setupConfirm (seti : String) (body : ConfirmBody)
  | setupCancel (seti : String) (body : ConfirmBody)
  | piAuthenticate (pi : String) (success : Bool) (key : String) (client_secret : String)
  | tokenCreate (key : String) (card : CardVal)
  | sourceCreate (key : String)
deriving DecidableEq

/-- Observable events of one entry-point invocation, in order. -/
inductive Ev where
  | call (r : Req)
  | challenge
deriving DecidableEq

/-- The decoded JSON body, restricted to the fields the script inspects:
`error = some e` models a truthy `error` field (`e` an opaque identity),
`error = none` an absent or falsy one; `status = none` models an absent
`status` field (read as `undefined`). -/
structure RespBody where
  error : Option Nat
  status : Option String
deriving DecidableEq

/-- A `fetch` outcome: HTTP status code and decoded body (a JSON-parse
failure is already normalized to `{}` by `.catch(() => ({}))`). -/
structure HttpResp where
  status : Nat
  body : RespBody
deriving DecidableEq

/-- The value an entry point resolves with: the discriminated union of the
shapes returned by localstripe-v3.js. -/
inductive JsResult where
  | setupIntentOk (body : RespBody)
  | setupIntentOnly (body : RespBody)
  | paymentIntent (body : RespBody)
  | token (body : RespBody)
  | source (body : RespBody)
  | errorField (e : Option Nat)
  | errorMessage (m : String)
  | errorCaught
deriving DecidableEq

/-- An exception escaping the public boundary (the async function's promise
rejects instead of resolving). -/
inductive JsErr where
  | typeError
deriving DecidableEq

/-- Fixed message returned when second-round authentication fails
(localstripe-v3.js:425-427). -/
def authFailedMessage : String :=
  "The latest attempt to set up the payment method has failed because authentication failed."

/-- JS template-literal rendering of `body.status` (an absent field prints
as `undefined`). -/
def statusText : Option String → String
  | some s => s
  | none => "undefined"

/-- Evaluation of `data.payment_method` into the `payment_method_data`
payload of the first confirm call (localstripe-v3.js:377-397).  `none`
models a TypeError thrown inside the `try` block: `data` itself
`undefined`, `data.payment_method` `undefined`, or an `Element` whose
`value` was never computed (`element.value.card` at line 379). -/
def setupPmPayload : Option (Option PaymentMethodObj) → Option PmPayload
  | none => none
  | some none => none
  | some (some pm) =>
    match pm.card with
    | none => some ⟨"card", none, pm.billing_postal_code⟩
    | some (.plain c) => some ⟨"card", some c, pm.billing_postal_code⟩
    | some (.element none) => none
    | some (.element (some v)) =>
      some ⟨"card", some v.card, some (pm.billing_postal_code.getD v.postal_code)⟩

/-- Shallow embedding of `Stripe(apiKey).confirmCardSetup(clientSecret, data)`
(localstripe-v3.js:372-439). -/
def confirmCardSetup (apiKey : String) (net : Nat → HttpResp) (presenter : Bool)
    (clientSecret : String) (data : Option (Option PaymentMethodObj)) :
    Except JsErr (JsResult × List Ev) :=
  .ok <| match parseSetiSecret clientSecret with
  | none => (.errorCaught, [])
  | some seti =>
    match setupPmPayload data with
    | none => (.errorCaught, [])
    | some payload =>
      let req1 := Req.setupConfirm seti ⟨apiKey, true, clientSecret, some payload⟩
      let r1 := net 0
      if r1.status ≠ 200 ∨ r1.body.error.isSome then
        (.errorField r1.body.error, [.call req1])
      else if r1.body.status = some "succeeded" then
        (.setupIntentOk r1.body, [.call req1])
      else if r1.body.status = some "requires_action" then
        let req2 := if presenter then Req.setupConfirm seti ⟨apiKey, true, clientSecret, none⟩
                    else Req.setupCancel seti ⟨apiKey, true, clientSecret, none⟩
        let r2 := net 1
        let trace := [Ev.call req1, Ev.challenge, Ev.call req2]
        if r2.status ≠ 200 ∨ r2.body.error.isSome then
          (.errorField r2.body.error, trace)
        else if r2.body.status = some "succeeded" then
          (.setupIntentOk r2.body, trace)
        else
          (.errorMessage authFailedMessage, trace)
      else
        (.errorMessage ("setup_intent has status " ++ statusText r1.body.status), [.call req1])

/-- Shallow embedding of `Stripe(apiKey).confirmCardPayment(clientSecret, data)`
(localstripe-v3.js:448-477): the modal is opened before the secret is even
parsed, then a single `_authenticate` call is issued. -/
def confirmCardPayment (apiKey : String) (net : Nat → HttpResp) (presenter : Bool)
    (clientSecret : String) : Except JsErr (JsResult × List Ev) :=
  .ok <| match parsePiSecret clientSecret with
  | none => (.errorCaught, [.challenge])
  | some intentId =>
    let req := Req.piAuthenticate intentId presenter apiKey clientSecret
    let r := net 0
    if r.status ≠ 200 ∨ r.body.error.isSome then
      (.errorField r.body.error, [.challenge, .call req])
    else
      (.paymentIntent r.body, [.challenge, .call req])

/-- Shallow embedding of `Stripe(apiKey).confirmSepaDebitSetup(clientSecret, data)`
(localstripe-v3.js:483-513).  `data = none` models `data` being `undefined`
(spreading `data.payment_method` then throws inside the `try`); the SEPA
`payment_method` fields themselves are not inspected by the script. -/
def confirmSepaDebitSetup (apiKey : String) (net : Nat → HttpResp)
    (clientSecret : String) (data : Option (Option Unit)) :
    Except JsErr (JsResult × List Ev) :=
  .ok <| match parseSetiSecret clientSecret with
  | none => (.errorCaught, [])
  | some seti =>
    match data with
    | none => (.errorCaught, [])
    | some _ =>
      let req := Req.setupConfirm seti ⟨apiKey, true, clientSecret, some ⟨"sepa_debit", none, none⟩⟩
      let r := net 0
      if r.status ≠ 200 ∨ r.body.error.isSome then
        (.errorField r.body.error, [.call req])
      else
        (.setupIntentOnly r.body, [.call req])

/-- Shallow embedding of `Stripe(apiKey).createToken(element)`
(localstripe-v3.js:314-343).  The request body is built from
`element.value.card` BEFORE the `try` block starts, so an Element whose
`value` was never computed (`element = none` here) makes the whole call
throw a TypeError past the public boundary. -/
def createToken (apiKey : String) (net : Nat → HttpResp) (element : Option ElemValue) :
    Except JsErr (JsResult × List Ev) :=
  match element with
  | none => .error .typeError
  | some v =>
    let req := Req.tokenCreate apiKey v.card
    let r := net 0
    .ok <| if r.status ≠ 200 ∨ r.body.error.isSome then
        (.errorField r.body.error, [.call req])
      else
        (.token r.body, [.call req])

/-- Shallow embedding of `Stripe(apiKey).createSource(source)`
(localstripe-v3.js:344-369); the `source` argument is only spread into the
JSON body (spreading even `undefined` is legal), so no input can throw. -/
def createSource (apiKey : String) (net : Nat → HttpResp) :
    Except JsErr (JsResult × List Ev) :=
  let req := Req.sourceCreate apiKey
  let r := net 0
  .ok <| if r.status ≠ 200 ∨ r.body.error.isSome then
      (.errorField r.body.error, [.call req])
    else
      (.source r.body, [.call req])

/-! ## Widget lifecycle (Element / elements() factory) -/

/-- Mutable state of one `Element` instance that `mount`/`unmount` touch.
`childrenParent = none` models `_domChildren` being empty (unmounted);
`childrenParent = some p` models non-empty `_domChildren` whose first
child's `parentElement` is `p` (`p = none` being a JS `null` parent, the
state left behind when `mount` threw while appending to a null target). -/
structure ElemSt where
  childrenParent : Option (Option Nat)
deriving DecidableEq

/-- Freshly constructed Element (localstripe-v3.js:85-92). -/
def initElem : ElemSt := ⟨none⟩

/-- State shared by one `elements()` factory instance and the Elements it
created: `slot` is `_cardElement` (as an element id), `states` the per-id
Element states, `fresh` the next unused id. -/
structure Sys where
  slot : Option Nat
  states : Nat → ElemSt
  fresh : Nat

/-- The argument given to `mount`: a DOM node (by id), a selector string
(resolved through the document), or any other value. -/
inductive MountArg where
  | node (n : Nat)
  | selector (q : String)
  | other
deriving DecidableEq

/-- The errors `mount` can throw (localstripe-v3.js:94-113, plus the
TypeError from `null.appendChild` at line 274). -/
inductive MountErr where
  | invalidTarget
  | destroyed
  | alreadyMounted
  | nullAppend
deriving DecidableEq

/-- Body of `mount` after the target argument has been resolved to a DOM
node id (`dom = none` modelling a JS `null` target): the destroyed check
(localstripe-v3.js:102-105), the already-mounted check (107-113), and the
build-and-append step (115-274) whose final `appendChild` throws a
TypeError when the target is `null` — only after `_domChildren` was
already populated, which the post-state records. -/
def mountResolved (dom : Option Nat) (slot : Option Nat) (selfId : Nat) (st : ElemSt) :
    Option MountErr × ElemSt :=
  if slot ≠ some selfId then (some .destroyed, st)
  else match st.childrenParent with
    | some p => if dom = p then (none, st) else (some .alreadyMounted, st)
    | none =>
      match dom with
      | some n => (none, { st with childrenParent := some (some n) })
      | none => (some .nullAppend, { st with childrenParent := some none })

/-- Shallow embedding of `Element.prototype.mount(domElement)`
(localstripe-v3.js:94-275).  `env` is `document.querySelector` (resolving
a selector to a node id or `null`); `slot` is the owning factory's current
`_cardElement`; `selfId` this Element's id.  Returns the thrown error (if
any) and the Element state afterwards.  A string selector resolving to
zero nodes does NOT throw at resolution (`querySelector` just returns
`null`, and only a non-string non-node argument trips the `instanceof`
check): the `null` flows into `mountResolved`. -/
def mount (env : String → Option Nat) (arg : MountArg) (slot : Option Nat)
    (selfId : Nat) (st : ElemSt) : Option MountErr × ElemSt :=
  match arg with
  | .other => (some .invalidTarget, st)
  | .node n => mountResolved (some n) slot selfId st
  | .selector q => mountResolved (env q) slot selfId st

/-- Shallow embedding of `Element.prototype.unmount()`
(localstripe-v3.js:277-282): all children are removed. -/
def unmount (st : ElemSt) : ElemSt := { st with childrenParent := none }

/-- Shallow embedding of `elements().create(type, options)`
(localstripe-v3.js:302-308): throws when the single card slot is occupied
(leaving all state unchanged), otherwise stores and returns a new Element. -/
def create (s : Sys) : (Except String Nat) × Sys :=
  match s.slot with
  | some _ => (.error "Can only create one Element of type card", s)
  | none =>
      (.ok s.fresh,
       { slot := some s.fresh,
         states := fun j => if j = s.fresh then initElem else s.states j,
         fresh := s.fresh + 1 })

/-- Shallow embedding of `Element.prototype.destroy()` on element `i`
(localstripe-v3.js:284-289): unmount, then clear the factory slot when it
still points at this Element. -/
def destroy (s : Sys) (i : Nat) : Sys :=
  let s' : Sys := { s with states := fun j => if j = i then unmount (s.states j) else s.states j }
  if s'.slot = some i then { s' with slot := none } else s'

/-! ## Masked input model (the per-field `oninput` normalizers) -/

/-- JS `\s` / `trim()` whitespace, restricted to the characters that can
matter here: after the digit filter the only whitespace the pipeline can
ever see is the plain space inserted by the grouping step, so omitting
exotic Unicode spaces does not change any function below. -/
def jsIsSpace (c : Char) : Bool :=
  c = ' ' || c = '\t' || c = '\n' || c = '\r' || c = '\x0b' || c = '\x0c' || c = ' '

/-- The regex replace `/(.{4})/g → '$1 '`: append a space after every
complete 4-character block, scanning left to right (the input is all
digits, so `.` matches every character). -/
def group4 : List Char → List Char
  | a :: b :: c :: d :: rest => a :: b :: c :: d :: ' ' :: group4 rest
  | rest => rest

/-- Leading half of `String.prototype.trim()`. -/
def trimStart (l : List Char) : List Char := l.dropWhile jsIsSpace

/-- Trailing half of `String.prototype.trim()`. -/
def trimEnd (l : List Char) : List Char := (l.reverse.dropWhile jsIsSpace).reverse

/-- JS `value.trim()`. -/
def jsTrim (l : List Char) : List Char := trimEnd (trimStart l)

/-- Tail of the card-number normalizer after the digit strip: group into
blocks of 4, `trim()`, cap the displayed text at 19 characters
(localstripe-v3.js:220-221). -/
def cardTail (d : List Char) : List Char :=
  let v2 := jsTrim (group4 d)
  if v2.length > 19 then v2.take 19 else v2

/-- Card-number `oninput` normalizer on character lists
(localstripe-v3.js:219-221): `replace(/\s/g,'')`, `replace(/[^0-9]/g,'')`,
group, trim, cap at 19. -/
def cardList (l : List Char) : List Char :=
  cardTail ((l.filter fun c => !jsIsSpace c).filter fun c => c.isDigit)

/-- Card-number `oninput` normalizer (localstripe-v3.js:218-224). -/
def cardNumberFormat (s : String) : String := String.mk (cardList s.toList)

/-- JS `parseInt` on a non-empty all-digit string (the only way the script
applies it, thanks to the `length === 2` / `length === 1` guards). -/
def digitsToNat (l : List Char) : Nat :=
  l.foldl (fun n c => 10 * n + (c.toNat - '0'.toNat)) 0

/-- Expiry-month `oninput` normalizer on character lists
(localstripe-v3.js:227-231): strip non-digits, cap at 2 digits, clamp a
2-digit value above 12 to "12", left-pad a single digit above 1 with "0". -/
def monthList (l : List Char) : List Char :=
  let v1 := l.filter fun c => c.isDigit
  let v2 := if v1.length > 2 then v1.take 2 else v1
  let v3 := if v2.length = 2 ∧ digitsToNat v2 > 12 then ['1', '2'] else v2
  if v3.length = 1 ∧ digitsToNat v3 > 1 then '0' :: v3 else v3

/-- Expiry-month `oninput` normalizer (localstripe-v3.js:226-233). -/
def expMonthFormat (s : String) : String := String.mk (monthList s.toList)

/-- Expiry-year `oninput` normalizer on character lists
(localstripe-v3.js:236-237): strip non-digits, cap at 2 digits. -/
def yearList (l : List Char) : List Char :=
  let v1 := l.filter fun c => c.isDigit
  if v1.length > 2 then v1.take 2 else v1

/-- Expiry-year `oninput` normalizer (localstripe-v3.js:235-240). -/
def expYearFormat (s : String) : String := String.mk (yearList s.toList)

/-- CVC `oninput` normalizer on character lists (localstripe-v3.js:243-244):
strip non-digits, cap at 4 digits. -/
def cvcList (l : List Char) : List Char :=
  let v1 := l.filter fun c => c.isDigit
  if v1.length > 4 then v1.take 4 else v1

/-- CVC `oninput` normalizer (localstripe-v3.js:242-247). -/
def cvcFormat (s : String) : String := String.mk (cvcList s.toList)

/-- The card number stored into the Element's `value` snapshot by `changed`
(localstripe-v3.js:129): the displayed text with whitespace stripped,
where the displayed text is the output of the `oninput` normalizer. -/
def storedCardNumber (raw : String) : String :=
  String.mk ((cardNumberFormat raw).toList.filter fun c => !jsIsSpace c)

/-! ## Concrete fixtures used by the witness theorems -/

/-- Network oracle answering every call with 200 / `status: "succeeded"`. -/
def wNetA : Nat → HttpResp := fun _ => ⟨200, ⟨none, some "succeeded"⟩⟩

/-- Network oracle: first call `requires_action`, second call `succeeded`. -/
def wNetB : Nat → HttpResp := fun n =>
  if n = 0 then ⟨200, ⟨none, some "requires_action"⟩⟩ else ⟨200, ⟨none, some "succeeded"⟩⟩

/-- Network oracle: first call `requires_action`, second call `canceled`. -/
def wNetC : Nat → HttpResp := fun n =>
  if n = 0 then ⟨200, ⟨none, some "requires_action"⟩⟩ else ⟨200, ⟨none, some "canceled"⟩⟩

/-- A plain-card `data` argument for `confirmCardSetup`. -/
def wData : Option (Option PaymentMethodObj) :=
  some (some ⟨some (.plain ⟨"4242424242424242", "05", "30", "123"⟩), none⟩)

/-- The `payment_method_data` payload `wData` turns into. -/
def wPayload : PmPayload := ⟨"card", some ⟨"4242424242424242", "05", "30", "123"⟩, none⟩

/-- A factory state whose single card slot is occupied by element 0. -/
def wSys : Sys := ⟨some 0, fun _ => initElem, 1⟩

/-! ## Helper lemmas -/

theorem isDigit_not_space {c : Char} (h : c.isDigit = true) : jsIsSpace c = false := by
  unfold Char.isDigit at h
  simp at h
  obtain ⟨h1, h2⟩ := h
  unfold jsIsSpace
  simp only [Bool.or_eq_false_iff, decide_eq_false_iff_not]
  repeat' apply And.intro
  all_goals (rintro rfl; revert h1 h2; decide)

theorem filter_digit_group4 : ∀ d : List Char, (∀ c ∈ d, c.isDigit = true) →
    (group4 d).filter (fun c => c.isDigit) = d
  | [], _ => rfl
  | [a], h => by simp [group4, List.filter_cons, h a (by simp)]
  | [a, b], h => by simp [group4, List.filter_cons, h a (by simp), h b (by simp)]
  | [a, b, c], h => by
      simp [group4, List.filter_cons, h a (by simp), h b (by simp), h c (by simp)]
  | a :: b :: c :: e :: rest, h => by
      have ih := filter_digit_group4 rest (fun x hx => h x (by simp [hx]))
      have hsp : (' ').isDigit = false := by decide
      simp [group4, List.filter_cons, h a (by simp), h b (by simp), h c (by simp),
        h e (by simp), hsp, ih]

theorem filter_nonspace_group4 : ∀ d : List Char, (∀ c ∈ d, c.isDigit = true) →
    (group4 d).filter (fun c => !jsIsSpace c) = d
  | [], _ => rfl
  | [a], h => by simp [group4, List.filter_cons, isDigit_not_space (h a (by simp))]
  | [a, b], h => by
      simp [group4, List.filter_cons, isDigit_not_space (h a (by simp)),
        isDigit_not_space (h b (by simp))]
  | [a, b, c], h => by
      simp [group4, List.filter_cons, isDigit_not_space (h a (by simp)),
        isDigit_not_space (h b (by simp)), isDigit_not_space (h c (by simp))]
  | a :: b :: c :: e :: rest, h => by
      have ih := filter_nonspace_group4 rest (fun x hx => h x (by simp [hx]))
      have hsp : jsIsSpace ' ' = true := by decide
      simp [group4, List.filter_cons, isDigit_not_space (h a (by simp)),
        isDigit_not_space (h b (by simp)), isDigit_not_space (h c (by simp)),
        isDigit_not_space (h e (by simp)), hsp, ih]

theorem group4_append4 : ∀ a b : List Char, a.length % 4 = 0 →
    group4 (a ++ b) = group4 a ++ group4 b
  | [], b, _ => rfl
  | [x], _, h => by simp at h
  | [x, y], _, h => by simp at h
  | [x, y, z], _, h => by simp at h
  | x :: y :: z :: w :: r, b, h => by
      have hr : r.length % 4 = 0 := by simp [List.length_cons] at h; omega
      simp [group4, group4_append4 r b hr]

theorem length_group4 : ∀ d : List Char, (group4 d).length = d.length + d.length / 4
  | [] => rfl
  | [a] => by simp [group4]
  | [a, b] => by simp [group4]
  | [a, b, c] => by simp [group4]
  | a :: b :: c :: e :: rest => by
      have ih := length_group4 rest
      simp [group4, List.length_cons, ih]
      omega

theorem trimStart_group4 : ∀ d : List Char, (∀ c ∈ d, c.isDigit = true) →
    trimStart (group4 d) = group4 d
  | [], _ => rfl
  | [a], h => by
      simp [group4, trimStart, List.dropWhile_cons, isDigit_not_space (h a (by simp))]
  | [a, b], h => by
      simp [group4, trimStart, List.dropWhile_cons, isDigit_not_space (h a (by simp))]
  | [a, b, c], h => by
      simp [group4, trimStart, List.dropWhile_cons, isDigit_not_space (h a (by simp))]
  | a :: b :: c :: e :: rest, h => by
      simp [group4, trimStart, List.dropWhile_cons, isDigit_not_space (h a (by simp))]

theorem trimEnd_append (a b : List Char) :
    trimEnd (a ++ b) = if trimEnd b = [] then trimEnd a else a ++ trimEnd b := by
  by_cases hb : trimEnd b = []
  · rw [if_pos hb]
    have hb' : b.reverse.dropWhile jsIsSpace = [] := by
      have := congrArg List.reverse hb
      simpa [trimEnd] using this
    unfold trimEnd
    rw [List.reverse_append, List.dropWhile_append, if_pos (List.isEmpty_iff.mpr hb')]
  · rw [if_neg hb]
    have hb' : ¬(b.reverse.dropWhile jsIsSpace).isEmpty := by
      intro hh
      apply hb
      unfold trimEnd
      rw [List.isEmpty_iff.mp hh]
      rfl
    unfold trimEnd
    rw [List.reverse_append, List.dropWhile_append, if_neg hb']
    simp

theorem trimEnd_of_not_space {l : List Char} (h : ∀ c ∈ l, jsIsSpace c = false) :
    trimEnd l = l := by
  unfold trimEnd
  have : l.reverse.dropWhile jsIsSpace = l.reverse := by
    cases hr : l.reverse with
    | nil => rfl
    | cons c t =>
        rw [List.dropWhile_cons]
        have hc : c ∈ l := by
          have : c ∈ l.reverse := by rw [hr]; simp
          simpa using this
        rw [h c hc]
        simp
  rw [this, List.reverse_reverse]

theorem group4_ne_nil {d : List Char} (hd : d ≠ []) : group4 d ≠ [] := by
  intro h
  have hlen := length_group4 d
  rw [h] at hlen
  simp at hlen
  have : d.length = 0 := by omega
  exact hd (List.length_eq_zero.mp this)

theorem trimEnd_digits {l : List Char} (h : ∀ c ∈ l, c.isDigit = true) : trimEnd l = l :=
  trimEnd_of_not_space (fun c hc => isDigit_not_space (h c hc))

theorem trimEnd_group4_spec : ∀ d : List Char, (∀ c ∈ d, c.isDigit = true) →
    (d.length % 4 = 0 ∧ d ≠ [] → ∃ g, group4 d = g ++ [' '] ∧ trimEnd (group4 d) = g) ∧
    (¬(d.length % 4 = 0 ∧ d ≠ []) → trimEnd (group4 d) = group4 d)
  | [], _ => ⟨fun h => absurd rfl h.2, fun _ => rfl⟩
  | [a], h => ⟨fun hh => by simp at hh, fun _ => trimEnd_digits h⟩
  | [a, b], h => ⟨fun hh => by simp at hh, fun _ => trimEnd_digits h⟩
  | [a, b, c], h => ⟨fun hh => by simp at hh, fun _ => trimEnd_digits h⟩
  | a :: b :: c :: e :: rest, h => by
      have hrest : ∀ x ∈ rest, x.isDigit = true := fun x hx => h x (by simp [hx])
      have ih := trimEnd_group4_spec rest hrest
      have hg : group4 (a :: b :: c :: e :: rest) = [a, b, c, e, ' '] ++ group4 rest := by
        simp [group4]
      constructor
      · rintro ⟨hlen, -⟩
        have hrlen : rest.length % 4 = 0 := by
          simp [List.length_cons] at hlen
          omega
        by_cases hr : rest = []
        · subst hr
          refine ⟨[a, b, c, e], by simp [group4], ?_⟩
          show trimEnd [a, b, c, e, ' '] = [a, b, c, e]
          have h5 : ([a, b, c, e, ' '] : List Char) = [a, b, c, e] ++ [' '] := by simp
          rw [h5, trimEnd_append, if_pos (by decide)]
          exact trimEnd_digits h
        · obtain ⟨g, hg1, hg2⟩ := ih.1 ⟨hrlen, hr⟩
          have hgne : g ≠ [] := by
            intro hge
            subst hge
            have hfil := filter_digit_group4 rest hrest
            rw [hg1] at hfil
            simp [List.filter] at hfil
            exact hr hfil
          refine ⟨[a, b, c, e, ' '] ++ g, ?_, ?_⟩
          · rw [hg, hg1]
            simp
          · rw [hg, trimEnd_append, if_neg (by rw [hg2]; exact hgne), hg2]
      · intro hne
        have hreq : rest.length % 4 ≠ 0 := by
          intro hz
          refine hne ⟨?_, by simp⟩
          simp [List.length_cons]
          omega
        have hrne : rest ≠ [] := by
          intro hz
          subst hz
          simp at hreq
        have htr : trimEnd (group4 rest) = group4 rest := ih.2 (fun hh => hreq hh.1)
        rw [hg, trimEnd_append, if_neg (by rw [htr]; exact group4_ne_nil hrne), htr]

theorem trimEnd_group4_ne_nil {r : List Char} (h : ∀ c ∈ r, c.isDigit = true)
    (hr : r ≠ []) : trimEnd (group4 r) ≠ [] := by
  rcases trimEnd_group4_spec r h with ⟨h1, h2⟩
  by_cases hc : r.length % 4 = 0 ∧ r ≠ []
  · obtain ⟨g, hg1, hg2⟩ := h1 hc
    rw [hg2]
    intro hge
    subst hge
    have hfil := filter_digit_group4 r h
    rw [hg1] at hfil
    simp [List.filter] at hfil
    exact hr hfil
  · rw [h2 hc]
    exact group4_ne_nil hr

theorem cardTail_eq (d : List Char) (h : ∀ c ∈ d, c.isDigit = true) :
    cardTail d = trimEnd (group4 (d.take 16)) := by
  unfold cardTail jsTrim
  rw [trimStart_group4 d h]
  by_cases hn : d.length ≤ 16
  · rw [List.take_of_length_le hn]
    rw [if_neg]
    simp only [not_lt]
    rcases trimEnd_group4_spec d h with ⟨h1, h2⟩
    by_cases hc : d.length % 4 = 0 ∧ d ≠ []
    · obtain ⟨g, hg1, hg2⟩ := h1 hc
      rw [hg2]
      have hlg : g.length + 1 = (group4 d).length := by
        rw [hg1]
        simp
      have := length_group4 d
      omega
    · rw [h2 hc]
      have := length_group4 d
      have hne : d.length % 4 ≠ 0 ∨ d = [] := by tauto
      rcases hne with hne | hne
      · omega
      · subst hne
        simp [group4]
  · push_neg at hn
    have hsplit : d.take 16 ++ d.drop 16 = d := List.take_append_drop 16 d
    have hlen16 : (d.take 16).length = 16 := by
      rw [List.length_take]
      omega
    have hdtake : ∀ c ∈ d.take 16, c.isDigit = true :=
      fun c hc => h c (List.take_subset 16 d hc)
    have hddrop : ∀ c ∈ d.drop 16, c.isDigit = true :=
      fun c hc => h c (List.drop_subset 16 d hc)
    have hdrne : d.drop 16 ≠ [] := by
      intro hz
      have := congrArg List.length hz
      simp at this
      omega
    have hgsplit : group4 d = group4 (d.take 16) ++ group4 (d.drop 16) := by
      conv_lhs => rw [← hsplit]
      exact group4_append4 _ _ (by rw [hlen16])
    obtain ⟨ge, hge1, hge2⟩ :=
      (trimEnd_group4_spec (d.take 16) hdtake).1
        ⟨by rw [hlen16], by intro hz; rw [hz] at hlen16; simp at hlen16⟩
    have hgelen : ge.length = 19 := by
      have h20 : (group4 (d.take 16)).length = 20 := by
        rw [length_group4, hlen16]
      rw [hge1] at h20
      simp at h20
      omega
    have htne : trimEnd (group4 (d.drop 16)) ≠ [] := trimEnd_group4_ne_nil hddrop hdrne
    rw [hgsplit, trimEnd_append, if_neg htne]
    rw [if_pos]
    · rw [hge1]
      rw [List.append_assoc]
      rw [List.take_append_eq_append_take]
      rw [hgelen]
      simp only [Nat.sub_self, List.take_zero, List.append_nil]
      rw [List.take_of_length_le (le_of_eq hgelen), ← hge1, hge2]
    · rw [List.length_append]
      have h20 : (group4 (d.take 16)).length = 20 := by
        rw [length_group4, hlen16]
      have : (trimEnd (group4 (d.drop 16))).length ≥ 1 :=
        List.length_pos.mpr htne
      omega

theorem filter_nonspace_trimEnd_group4 (e : List Char) (h : ∀ c ∈ e, c.isDigit = true) :
    (trimEnd (group4 e)).filter (fun c => !jsIsSpace c) = e := by
  rcases trimEnd_group4_spec e h with ⟨h1, h2⟩
  by_cases hc : e.length % 4 = 0 ∧ e ≠ []
  · obtain ⟨g, hg1, hg2⟩ := h1 hc
    rw [hg2]
    have := filter_nonspace_group4 e h
    rw [hg1] at this
    simpa [List.filter_append, List.filter, show jsIsSpace ' ' = true from by decide] using this
  · rw [h2 hc]
    exact filter_nonspace_group4 e h

theorem filter_nonspace_cardTail (d : List Char) (h : ∀ c ∈ d, c.isDigit = true) :
    (cardTail d).filter (fun c => !jsIsSpace c) = d.take 16 := by
  rw [cardTail_eq d h]
  exact filter_nonspace_trimEnd_group4 _ (fun c hc => h c (List.take_subset 16 d hc))

theorem digitsOf_all_digit (l : List Char) :
    ∀ c ∈ (l.filter fun c => !jsIsSpace c).filter (fun c => c.isDigit), c.isDigit = true := by
  intro c hc
  exact (List.mem_filter.mp hc).2

theorem cardList_filter_nonspace (l : List Char) :
    (cardList l).filter (fun c => !jsIsSpace c) =
      ((l.filter fun c => !jsIsSpace c).filter (fun c => c.isDigit)).take 16 := by
  unfold cardList
  exact filter_nonspace_cardTail _ (digitsOf_all_digit l)

theorem storedCardNumber_eq (s : String) :
    storedCardNumber s =
      String.mk (((s.toList.filter fun c => !jsIsSpace c).filter (fun c => c.isDigit)).take 16) := by
  unfold storedCardNumber cardNumberFormat
  rw [show (String.mk (cardList s.toList)).toList = cardList s.toList from rfl]
  rw [cardList_filter_nonspace]

theorem cardList_idem (l : List Char) : cardList (cardList l) = cardList l := by
  have hd := digitsOf_all_digit l
  show cardList (cardTail ((l.filter fun c => !jsIsSpace c).filter (fun c => c.isDigit))) = _
  unfold cardList
  rw [filter_nonspace_cardTail _ hd]
  rw [List.filter_eq_self.mpr (fun c hc => hd c (List.take_subset _ _ hc))]
  rw [cardTail_eq _ (fun c hc => hd c (List.take_subset _ _ hc))]
  rw [List.take_take]
  rw [cardTail_eq _ hd]
  simp

theorem digit_val_le {c : Char} (h : c.isDigit = true) :
    '0'.toNat ≤ c.toNat ∧ c.toNat ≤ '9'.toNat := by
  unfold Char.isDigit at h
  simp at h
  obtain ⟨h1, h2⟩ := h
  constructor
  · exact h1
  · exact h2

theorem digitsToNat_single {c : Char} (h : c.isDigit = true) : digitsToNat [c] ≤ 9 := by
  obtain ⟨h1, h2⟩ := digit_val_le h
  have e0 : '0'.toNat = 48 := rfl
  have e9 : '9'.toNat = 57 := rfl
  unfold digitsToNat
  simp [List.foldl]
  omega

theorem monthList_fixed (o : List Char) (hd : ∀ c ∈ o, c.isDigit = true)
    (hlen : o.length ≤ 2) (h2 : o.length = 2 → digitsToNat o ≤ 12)
    (h1 : o.length = 1 → digitsToNat o ≤ 1) : monthList o = o := by
  unfold monthList
  simp only [List.filter_eq_self.mpr hd]
  have g1 : ¬o.length > 2 := by omega
  rw [if_neg g1]
  have g2 : ¬(o.length = 2 ∧ digitsToNat o > 12) := by
    intro hh
    have := h2 hh.1
    omega
  rw [if_neg g2]
  have g3 : ¬(o.length = 1 ∧ digitsToNat o > 1) := by
    intro hh
    have := h1 hh.1
    omega
  rw [if_neg g3]

theorem month_chain_props : ∀ v1 : List Char, (∀ c ∈ v1, c.isDigit = true) →
    ∀ v2, v2 = (if v1.length > 2 then v1.take 2 else v1) →
    ∀ v3, v3 = (if v2.length = 2 ∧ digitsToNat v2 > 12 then ['1', '2'] else v2) →
    ∀ o, o = (if v3.length = 1 ∧ digitsToNat v3 > 1 then '0' :: v3 else v3) →
    (∀ c ∈ o, c.isDigit = true) ∧ o.length ≤ 2 ∧
    (o.length = 2 → digitsToNat o ≤ 12) ∧ (o.length = 1 → digitsToNat o ≤ 1) := by
  intro v1 h1d v2 hv2 v3 hv3 o ho
  have hv2d : ∀ c ∈ v2, c.isDigit = true := by
    rw [hv2]
    split
    · exact fun c hc => h1d c (List.take_subset _ _ hc)
    · exact h1d
  have hv2len : v2.length ≤ 2 := by
    rw [hv2]
    split
    · rw [List.length_take]; omega
    · omega
  have hv3d : ∀ c ∈ v3, c.isDigit = true := by
    rw [hv3]
    split
    · intro c hc
      rcases List.mem_pair.mp hc with rfl | rfl <;> decide
    · exact hv2d
  have hv3len : v3.length ≤ 2 := by
    rw [hv3]
    split
    · simp
    · exact hv2len
  have hv3val : v3.length = 2 → digitsToNat v3 ≤ 12 := by
    rw [hv3]
    split
    · intro _
      decide
    · rename_i hguard
      intro hlen2
      by_contra hgt
      exact hguard ⟨hlen2, by omega⟩
  rw [ho]
  split
  · rename_i hpad
    obtain ⟨hlen1, hval⟩ := hpad
    obtain ⟨c, hc⟩ := List.length_eq_one.mp hlen1
    have h9 : digitsToNat v3 ≤ 9 := by
      rw [hc]
      exact digitsToNat_single (hv3d c (by rw [hc]; simp))
    have hz : digitsToNat ('0' :: v3) = digitsToNat v3 := by
      rw [hc]
      unfold digitsToNat
      simp [List.foldl]
    refine ⟨?_, ?_, ?_, ?_⟩
    · intro x hx
      rcases List.mem_cons.mp hx with rfl | hx
      · decide
      · exact hv3d x hx
    · simp [hlen1]
    · intro _
      omega
    · intro habs
      simp [hlen1] at habs
  · rename_i hnopad
    refine ⟨hv3d, hv3len, hv3val, ?_⟩
    intro hlen1
    by_contra hgt
    exact hnopad ⟨hlen1, by omega⟩

theorem monthList_props (l : List Char) :
    (∀ c ∈ monthList l, c.isDigit = true) ∧ (monthList l).length ≤ 2 ∧
    ((monthList l).length = 2 → digitsToNat (monthList l) ≤ 12) ∧
    ((monthList l).length = 1 → digitsToNat (monthList l) ≤ 1) := by
  have hv1d : ∀ c ∈ l.filter (fun c => c.isDigit), c.isDigit = true :=
    fun c hc => (List.mem_filter.mp hc).2
  exact month_chain_props _ hv1d _ rfl _ rfl (monthList l) rfl

theorem monthList_idem (l : List Char) : monthList (monthList l) = monthList l := by
  obtain ⟨h1, h2, h3, h4⟩ := monthList_props l
  exact monthList_fixed _ h1 h2 h3 h4

theorem capList_idem (n : Nat) (l : List Char) :
    (let f := fun x : List Char =>
       let v1 := x.filter fun c => c.isDigit
       if v1.length > n then v1.take n else v1
     f (f l) = f l) := by
  intro f
  show f (f l) = f l
  have hfd : ∀ x : List Char, ∀ c ∈ f x, c.isDigit = true := by
    intro x c hc
    show c.isDigit = true
    by_cases h : (x.filter fun c => c.isDigit).length > n
    · have : f x = (x.filter fun c => c.isDigit).take n := if_pos h
      rw [this] at hc
      exact (List.mem_filter.mp (List.take_subset _ _ hc)).2
    · have : f x = x.filter fun c => c.isDigit := if_neg h
      rw [this] at hc
      exact (List.mem_filter.mp hc).2
  have hfil : (f l).filter (fun c => c.isDigit) = f l :=
    List.filter_eq_self.mpr (hfd l)
  show (if ((f l).filter fun c => c.isDigit).length > n then ((f l).filter fun c => c.isDigit).take n else (f l).filter fun c => c.isDigit) = f l
  rw [hfil]
  have hlen : (f l).length ≤ n := by
    by_cases h : (l.filter fun c => c.isDigit).length > n
    · rw [show f l = (l.filter fun c => c.isDigit).take n from if_pos h, List.length_take]
      omega
    · rw [show f l = l.filter fun c => c.isDigit from if_neg h]
      omega
  rw [if_neg (by omega)]

theorem yearList_idem (l : List Char) : yearList (yearList l) = yearList l :=
  capList_idem 2 l

theorem cvcList_idem (l : List Char) : cvcList (cvcList l) = cvcList l :=
  capList_idem 4 l

/-! ## The claims -/

/-- C1: whenever the first confirm call of `confirmCardSetup` returns
transport status 200 with a body carrying no error field and status
`succeeded`, the call resolves to exactly the pair error-null /
setupIntent-body, and the event trace contains exactly one network call
(the first confirm) — no second confirm, no cancel, and no Challenge
Presenter invocation. -/
theorem claim_C1_setup_first_success (apiKey clientSecret : String) (net : Nat → HttpResp)
    (presenter : Bool) (data : Option (Option PaymentMethodObj))
    (seti : String) (payload : PmPayload)
    (hsec : parseSetiSecret clientSecret = some seti)
    (hpm : setupPmPayload data = some payload)
    (hstat : (net 0).status = 200)
    (herr : (net 0).body.error = none)
    (hsucc : (net 0).body.status = some "succeeded") :
    confirmCardSetup apiKey net presenter clientSecret data =
      .ok (.setupIntentOk (net 0).body,
        [.call (.setupConfirm seti ⟨apiKey, true, clientSecret, some payload⟩)]) := by
  simp [confirmCardSetup, hsec, hpm, hstat, herr, hsucc]

/-- Witness for C1 at a concrete secret, card and network oracle. -/
theorem claim_C1_witness :
    confirmCardSetup "sk_test" wNetA true "seti_abc_secret_x" wData =
      .ok (.setupIntentOk ⟨none, some "succeeded"⟩,
        [.call (.setupConfirm "seti_abc" ⟨"sk_test", true, "seti_abc_secret_x", some wPayload⟩)]) :=
  claim_C1_setup_first_success "sk_test" "seti_abc_secret_x" wNetA true wData "seti_abc" wPayload
    (by decide) (by decide) rfl rfl rfl

/-- C2: when the first confirm call succeeds with status `requires_action`
and the Challenge Presenter resolves true, exactly one additional confirm
call is made — same endpoint (`setup_intents/<seti>/confirm`), same client
secret, `use_stripe_sdk = true`, and no `payment_method_data` — and when
that second call returns 200 with no error field and status `succeeded`,
the result is error-null / setupIntent-second-body. -/
theorem claim_C2_requires_action_accept (apiKey clientSecret : String) (net : Nat → HttpResp)
    (data : Option (Option PaymentMethodObj)) (seti : String) (payload : PmPayload)
    (hsec : parseSetiSecret clientSecret = some seti)
    (hpm : setupPmPayload data = some payload)
    (h1s : (net 0).status = 200) (h1e : (net 0).body.error = none)
    (h1st : (net 0).body.status = some "requires_action")
    (h2s : (net 1).status = 200) (h2e : (net 1).body.error = none)
    (h2st : (net 1).body.status = some "succeeded") :
    confirmCardSetup apiKey net true clientSecret data =
      .ok (.setupIntentOk (net 1).body,
        [.call (.setupConfirm seti ⟨apiKey, true, clientSecret, some payload⟩),
         .challenge,
         .call (.setupConfirm seti ⟨apiKey, true, clientSecret, none⟩)]) := by
  simp [confirmCardSetup, hsec, hpm, h1s, h1e, h1st, h2s, h2e, h2st]

/-- Witness for C2. -/
theorem claim_C2_witness :
    confirmCardSetup "sk_test" wNetB true "seti_abc_secret_x" wData =
      .ok (.setupIntentOk ⟨none, some "succeeded"⟩,
        [.call (.setupConfirm "seti_abc" ⟨"sk_test", true, "seti_abc_secret_x", some wPayload⟩),
         .challenge,
         .call (.setupConfirm "seti_abc" ⟨"sk_test", true, "seti_abc_secret_x", none⟩)]) :=
  claim_C2_requires_action_accept "sk_test" "seti_abc_secret_x" wNetB wData "seti_abc" wPayload
    (by decide) (by decide) rfl rfl rfl rfl rfl rfl

/-- C3: when the first confirm call succeeds with status `requires_action`
and the Challenge Presenter resolves false, the second network call goes to
the cancel endpoint (not confirm), and — the cancel round-trip completing
normally (status 200, no error field, any status other than `succeeded`,
e.g. `canceled`) — the final result is the fixed authentication-failed
error message. -/
theorem claim_C3_requires_action_reject (apiKey clientSecret : String) (net : Nat → HttpResp)
    (data : Option (Option PaymentMethodObj)) (seti : String) (payload : PmPayload)
    (hsec : parseSetiSecret clientSecret = some seti)
    (hpm : setupPmPayload data = some payload)
    (h1s : (net 0).status = 200) (h1e : (net 0).body.error = none)
    (h1st : (net 0).body.status = some "requires_action")
    (h2s : (net 1).status = 200) (h2e : (net 1).body.error = none)
    (h2st : (net 1).body.status ≠ some "succeeded") :
    confirmCardSetup apiKey net false clientSecret data =
      .ok (.errorMessage authFailedMessage,
        [.call (.setupConfirm seti ⟨apiKey, true, clientSecret, some payload⟩),
         .challenge,
         .call (.setupCancel seti ⟨apiKey, true, clientSecret, none⟩)]) := by
  simp [confirmCardSetup, hsec, hpm, h1s, h1e, h1st, h2s, h2e, h2st]

/-- Witness for C3 (the cancel call answers 200 / `canceled`). -/
theorem claim_C3_witness :
    confirmCardSetup "sk_test" wNetC false "seti_abc_secret_x" wData =
      .ok (.errorMessage authFailedMessage,
        [.call (.setupConfirm "seti_abc" ⟨"sk_test", true, "seti_abc_secret_x", some wPayload⟩),
         .challenge,
         .call (.setupCancel "seti_abc" ⟨"sk_test", true, "seti_abc_secret_x", none⟩)]) :=
  claim_C3_requires_action_reject "sk_test" "seti_abc_secret_x" wNetC wData "seti_abc" wPayload
    (by decide) (by decide) rfl rfl rfl rfl rfl (by decide)

/-- C4: when the first confirm call succeeds (200, no error field) but
returns a status that is neither `succeeded` nor `requires_action`, the
result is the error message `setup_intent has status <status>` and the
trace holds exactly the one confirm call — no further network calls and no
Challenge Presenter invocation. -/
theorem claim_C4_unknown_status (apiKey clientSecret : String) (net : Nat → HttpResp)
    (presenter : Bool) (data : Option (Option PaymentMethodObj))
    (seti : String) (payload : PmPayload) (s : String)
    (hsec : parseSetiSecret clientSecret = some seti)
    (hpm : setupPmPayload data = some payload)
    (h1s : (net 0).status = 200) (h1e : (net 0).body.error = none)
    (h1st : (net 0).body.status = some s)
    (hns : s ≠ "succeeded") (hna : s ≠ "requires_action") :
    confirmCardSetup apiKey net presenter clientSecret data =
      .ok (.errorMessage ("setup_intent has status " ++ s),
        [.call (.setupConfirm seti ⟨apiKey, true, clientSecret, some payload⟩)]) := by
  simp [confirmCardSetup, hsec, hpm, h1s, h1e, h1st, hns, hna, statusText]

/-- Witness for C4 at the status "foo" from the spec. -/
theorem claim_C4_witness :
    confirmCardSetup "sk_test" (fun _ => ⟨200, ⟨none, some "foo"⟩⟩) true "seti_abc_secret_x" wData =
      .ok (.errorMessage "setup_intent has status foo",
        [.call (.setupConfirm "seti_abc" ⟨"sk_test", true, "seti_abc_secret_x", some wPayload⟩)]) :=
  claim_C4_unknown_status "sk_test" "seti_abc_secret_x" (fun _ => ⟨200, ⟨none, some "foo"⟩⟩)
    true wData "seti_abc" wPayload "foo" (by decide) (by decide) rfl rfl rfl
    (by decide) (by decide)

/-- C5: `confirmCardPayment` opens the Challenge Presenter before any
network call (the trace starts with the challenge event), then issues
exactly one call, to the intent-specific `_authenticate` endpoint with the
presenter outcome as the `success` query parameter, and resolves to the
paymentIntent body on 200-without-error and to the error field otherwise. -/
theorem claim_C5_payment_one_shot (apiKey clientSecret : String) (net : Nat → HttpResp)
    (presenter : Bool) (intentId : String)
    (hsec : parsePiSecret clientSecret = some intentId) :
    confirmCardPayment apiKey net presenter clientSecret =
      .ok (if (net 0).status ≠ 200 ∨ (net 0).body.error.isSome then
            (.errorField (net 0).body.error,
             [.challenge, .call (.piAuthenticate intentId presenter apiKey clientSecret)])
          else
            (.paymentIntent (net 0).body,
             [.challenge, .call (.piAuthenticate intentId presenter apiKey clientSecret)])) := by
  simp [confirmCardPayment, hsec]

/-- Witness for C5 with a rejecting presenter. -/
theorem claim_C5_witness :
    confirmCardPayment "sk_test" wNetA false "pi_abc_secret_x" =
      .ok (.paymentIntent ⟨none, some "succeeded"⟩,
        [.challenge, .call (.piAuthenticate "pi_abc" false "sk_test" "pi_abc_secret_x")]) :=
  claim_C5_payment_one_shot "sk_test" "pi_abc_secret_x" wNetA false "pi_abc" (by decide)

/-- C6 counterexample: `createToken` on an Element whose `value` snapshot
was never computed throws a TypeError past the public boundary (the
request body is assembled from `element.value.card` before the `try`
block, localstripe-v3.js:316-322), so the claim that every public entry
point resolves to an error-or-success object is false as stated. -/
theorem claim_C6_counterexample :
    createToken "sk_test" (fun _ => ⟨200, ⟨none, none⟩⟩) none = .error .typeError := rfl

/-- C6 amended: `createSource`, `confirmCardSetup`, `confirmCardPayment`
and `confirmSepaDebitSetup` always resolve (their bodies are wholly inside
try/catch), and `createToken` resolves whenever the Element value has been
computed; only `createToken` on a value-less Element rejects. -/
theorem claim_C6_amended :
    (∀ k net v, ∃ r, createToken k net (some v) = .ok r) ∧
    (∀ k net, ∃ r, createSource k net = .ok r) ∧
    (∀ k net p cs d, ∃ r, confirmCardSetup k net p cs d = .ok r) ∧
    (∀ k net p cs, ∃ r, confirmCardPayment k net p cs = .ok r) ∧
    (∀ k net cs d, ∃ r, confirmSepaDebitSetup k net cs d = .ok r) := by
  refine ⟨?_, ?_, ?_, ?_, ?_⟩ <;> intros <;> exact ⟨_, rfl⟩

/-- C7: while the factory slot holds an element, `create` throws
"Can only create one Element of type card" and leaves the entire state
(including the existing Element) unmodified; `destroy` clears the slot, so
a subsequent `create` succeeds. -/
theorem claim_C7_single_widget (s : Sys) (j : Nat) (h : s.slot = some j) :
    (create s).1 = .error "Can only create one Element of type card" ∧
    (create s).2 = s ∧
    (destroy s j).slot = none ∧
    (create (destroy s j)).1 = .ok (destroy s j).fresh := by
  refine ⟨?_, ?_, ?_, ?_⟩
  · simp [create, h]
  · simp [create, h]
  · simp [destroy, h]
  · simp [create, destroy, h]

/-- Witness for C7 on a one-element factory state. -/
theorem claim_C7_witness :
    (create wSys).1 = .error "Can only create one Element of type card" ∧
    (create wSys).2 = wSys ∧
    (destroy wSys 0).slot = none ∧
    (create (destroy wSys 0)).1 = .ok (destroy wSys 0).fresh :=
  claim_C7_single_widget wSys 0 rfl

/-- C8 counterexample: after a first zero-node-selector mount has failed
(leaving `_domChildren` populated with parentless nodes), a second mount
with a zero-node selector raises no error at all: `null` compares equal to
the first child's `null` parentElement and the call silently no-ops.  The
claim that a zero-node selector always raises an error is therefore false
as stated. -/
theorem claim_C8_counterexample :
    (mount (fun _ => none) (.selector "#card") (some 0) 0
      (mount (fun _ => none) (.selector "#card") (some 0) 0 initElem).2).1 = none := rfl

/-- C8 amended: mounting a destroyed Element raises an error; mounting
while mounted to the same target is a state-preserving no-op; mounting
while mounted to a different target raises an error; a non-node non-string
argument raises an error; and a string selector resolving to zero nodes
raises an error except in the half-built state left by an earlier failed
null-target mount. -/
theorem claim_C8_amended (env : String → Option Nat) (slot : Option Nat) (selfId : Nat)
    (st : ElemSt) :
    (∀ arg, arg ≠ MountArg.other → slot ≠ some selfId →
        mount env arg slot selfId st = (some .destroyed, st)) ∧
    (∀ p, slot = some selfId → st.childrenParent = some (some p) →
        mount env (.node p) slot selfId st = (none, st)) ∧
    (∀ p q, slot = some selfId → st.childrenParent = some (some p) → q ≠ p →
        mount env (.node q) slot selfId st = (some .alreadyMounted, st)) ∧
    (mount env .other slot selfId st = (some .invalidTarget, st)) ∧
    (∀ q, env q = none → st.childrenParent ≠ some none →
        (mount env (.selector q) slot selfId st).1.isSome = true) := by
  refine ⟨?_, ?_, ?_, ?_, ?_⟩
  · intro arg hne hslot
    cases arg with
    | node n => simp [mount, mountResolved, hslot]
    | selector q => simp [mount, mountResolved, hslot]
    | other => exact absurd rfl hne
  · intro p hslot hcp
    simp [mount, mountResolved, hslot, hcp]
  · intro p q hslot hcp hne
    simp [mount, mountResolved, hslot, hcp, hne]
  · rfl
  · intro q henv hcp
    cases hst : st.childrenParent with
    | none =>
        simp only [mount, mountResolved, henv, hst]
        split <;> simp
    | some popt =>
        cases popt with
        | none => exact absurd hst hcp
        | some p =>
            simp only [mount, mountResolved, henv, hst]
            split <;> simp

/-- Witness for C8, one concrete instance per conjunct. -/
theorem claim_C8_witness :
    mount (fun _ => some 7) (.node 3) (some 1) 0 initElem = (some .destroyed, initElem) ∧
    mount (fun _ => some 7) (.node 5) (some 0) 0 ⟨some (some 5)⟩ = (none, ⟨some (some 5)⟩) ∧
    mount (fun _ => some 7) (.node 6) (some 0) 0 ⟨some (some 5)⟩ =
      (some .alreadyMounted, ⟨some (some 5)⟩) ∧
    mount (fun _ => some 7) .other (some 0) 0 initElem = (some .invalidTarget, initElem) ∧
    (mount (fun _ => none) (.selector "#zero") (some 0) 0 initElem).1.isSome = true :=
  ⟨(claim_C8_amended (fun _ => some 7) (some 1) 0 initElem).1 (.node 3) (by decide) (by decide),
   (claim_C8_amended (fun _ => some 7) (some 0) 0 ⟨some (some 5)⟩).2.1 5 rfl rfl,
   (claim_C8_amended (fun _ => some 7) (some 0) 0 ⟨some (some 5)⟩).2.2.1 5 6 rfl rfl (by decide),
   (claim_C8_amended (fun _ => some 7) (some 0) 0 initElem).2.2.2.1,
   (claim_C8_amended (fun _ => none) (some 0) 0 initElem).2.2.2.2 "#zero" rfl (by decide)⟩

/-- C9: for every raw text the card-number field may hold (hence for every
keystroke sequence), the value stored in the Element snapshot — displayed
text with whitespace stripped — consists of decimal digits only and has
length at most 16. -/
theorem claim_C9_stored_number_digits16 : ∀ raw : String,
    (∀ c ∈ (storedCardNumber raw).toList, c.isDigit = true) ∧
    (storedCardNumber raw).length ≤ 16 := by
  intro raw
  rw [storedCardNumber_eq]
  constructor
  · intro c hc
    have hm : c ∈ ((raw.toList.filter fun c => !jsIsSpace c).filter fun c => c.isDigit).take 16 := hc
    exact (List.mem_filter.mp (List.take_subset _ _ hm)).2
  · show (List.take 16 _).length ≤ 16
    rw [List.length_take]
    omega

/-- C10: each of the four per-field `oninput` normalizers is idempotent —
its output is a fixed point, so re-normalizing the displayed text never
changes it (in particular a clamped or zero-padded month, a grouped and
truncated card number, and a truncated year or CVC). -/
theorem claim_C10_normalizers_idempotent : ∀ s : String,
    cardNumberFormat (cardNumberFormat s) = cardNumberFormat s ∧
    expMonthFormat (expMonthFormat s) = expMonthFormat s ∧
    expYearFormat (expYearFormat s) = expYearFormat s ∧
    cvcFormat (cvcFormat s) = cvcFormat s := by
  intro s
  refine ⟨?_, ?_, ?_, ?_⟩
  · show String.mk (cardList (String.mk (cardList s.toList)).toList) = _
    rw [show (String.mk (cardList s.toList)).toList = cardList s.toList from rfl]
    rw [cardList_idem]
    rfl
  · show String.mk (monthList (String.mk (monthList s.toList)).toList) = _
    rw [show (String.mk (monthList s.toList)).toList = monthList s.toList from rfl]
    rw [monthList_idem]
    rfl
  · show String.mk (yearList (String.mk (yearList s.toList)).toList) = _
    rw [show (String.mk (yearList s.toList)).toList = yearList s.toList from rfl]
    rw [yearList_idem]
    rfl
  · show String.mk (cvcList (String.mk (cvcList s.toList)).toList) = _
    rw [show (String.mk (cvcList s.toList)).toList = cvcList s.toList from rfl]
    rw [cvcList_idem]
    rfl

end Localstripe
